import Mathlib

/-!
Verification of the failure-reporting and error-unification layer of the
lambda runtime client (`lambda-runtime-client/src/error.rs`).

The Rust source is shallowly embedded: the ambient state the code reads
(the `RUST_BACKTRACE` environment variable, and the call stack snapshot
that `backtrace::Backtrace::new()` would capture) is passed explicitly to
`ApiError.new`, so every definition is a pure function of its inputs.
-/

namespace LambdaError

/-- `ERROR_TYPE_HANDLED` from `error.rs`. -/
def ERROR_TYPE_HANDLED : String := "Handled"

/-- `ERROR_TYPE_UNHANDLED` from `error.rs`. -/
def ERROR_TYPE_UNHANDLED : String := "Unhandled"

/-- A captured stack snapshot from the `backtrace` crate. The embedding
keeps only what the `error.rs` code can observe of it: its `Debug`
rendering (the string `format!` produces for the bare `Backtrace`). -/
structure Backtrace where
  debug : String
  deriving Repr, DecidableEq

/-- Rust `format!` applied with the `Debug` format to an
`Option<backtrace::Backtrace>` value: `None` renders as the literal
string `None`, and `Some(bt)` renders as `Some(` ++ the inner `Debug`
rendering ++ `)`. -/
def debugFmtOptionBacktrace : Option Backtrace → String
  | none => "None"
  | some bt => "Some(" ++ bt.debug ++ ")"

/-- One step of Rust `str::lines`: split a character list at every
newline character. The result is never empty (an empty input gives one
empty line, matching how `str::lines` is finished off in `rustLines`). -/
def breakLines : List Char → List (List Char)
  | [] => [[]]
  | c :: rest =>
    let r := breakLines rest
    if c = '\n' then [] :: r
    else (c :: r.headD []) :: r.tail

/-- Rust `str::lines().map(|s| s.to_string()).collect::<Vec<String>>()`:
the empty string yields no lines, a trailing newline does not produce a
final empty line, and a carriage return at the end of a line is
stripped. -/
def rustLines (s : String) : List String :=
  if s.data.isEmpty then []
  else
    let parts := breakLines s.data
    let parts2 := if parts.getLast? = some [] then parts.dropLast else parts
    parts2.map (fun l => String.mk (if l.getLast? = some '\r' then l.dropLast else l))

/-- The `ErrorResponse` struct from `error.rs`: the serializable failure
report sent to the Lambda Runtime APIs. -/
structure ErrorResponse where
  error_message : String
  error_type : String
  stack_trace : Option (List String)
  deriving Repr, DecidableEq

/-- `ErrorResponse::handled` from `error.rs`. -/
def ErrorResponse.handled (message : String) : ErrorResponse :=
  { error_message := message
    error_type := ERROR_TYPE_HANDLED
    stack_trace := none }

/-- `ErrorResponse::unhandled` from `error.rs`. -/
def ErrorResponse.unhandled (message : String) : ErrorResponse :=
  { error_message := message
    error_type := ERROR_TYPE_UNHANDLED
    stack_trace := none }

/-- The `ApiError` struct from `error.rs`. -/
structure ApiError where
  msg : String
  backtrace : Option Backtrace
  recoverable : Bool
  deriving Repr, DecidableEq

/-- `ApiError::new` from `error.rs`. The two ambient reads are explicit
arguments: `env` is the value of the `RUST_BACKTRACE` environment
variable at the moment of the call (`none` when `env::var` returns an
error, i.e. the variable is unset or not unicode), and `current` is the
stack snapshot `backtrace::Backtrace::new()` would capture at that
moment. The trace is stored iff the variable reads `Ok` and the value
equals the literal `"1"`. -/
def ApiError.new (env : Option String) (current : Backtrace) (description : String) :
    ApiError :=
  let trace : Option Backtrace :=
    match env with
    | some v => if v = "1" then some current else none
    | none => none
  { msg := description
    backtrace := trace
    recoverable := true }

/-- `ApiError::unrecoverable` from `error.rs`: sets `recoverable` to
`false` and returns the receiver. In the state-passing embedding the
returned reference is the post-state itself. -/
def ApiError.unrecoverable (e : ApiError) : ApiError :=
  { e with recoverable := false }

/-- `impl RuntimeApiError for ApiError`, method `to_response`, from
`error.rs`: `Debug`-formats the `backtrace` field (an `Option`), splits
the rendering into lines, and attaches the resulting vector to an
unhandled `ErrorResponse`. -/
def ApiError.to_response (e : ApiError) : ErrorResponse :=
  let backtrace := debugFmtOptionBacktrace e.backtrace
  let trace_vec := rustLines backtrace
  let err := ErrorResponse.unhandled e.msg
  { err with stack_trace := some trace_vec }

/-- A `serde_json::Error` as `error.rs` observes it: only its
`description()` text is used. -/
structure SerdeJsonError where
  description : String

/-- An `http::uri::InvalidUri` as `error.rs` observes it. -/
structure InvalidUri where
  description : String

/-- A `hyper::Error` as `error.rs` observes it. -/
structure HyperError where
  description : String

/-- An `http::header::ToStrError` as `error.rs` observes it. -/
structure ToStrError where
  description : String

/-- A `std::num::ParseIntError` as `error.rs` observes it. -/
structure ParseIntError where
  description : String

/-- A `std::io::Error` as `error.rs` observes it. -/
structure IoError where
  description : String

/-- `impl From<serde_json::Error> for ApiError` from `error.rs`. -/
def ApiError.fromSerdeJsonError (env : Option String) (current : Backtrace)
    (e : SerdeJsonError) : ApiError :=
  ApiError.new env current e.description

/-- `impl From<InvalidUri> for ApiError` from `error.rs`. -/
def ApiError.fromInvalidUri (env : Option String) (current : Backtrace)
    (e : InvalidUri) : ApiError :=
  ApiError.new env current e.description

/-- `impl From<hyper::Error> for ApiError` from `error.rs`. -/
def ApiError.fromHyperError (env : Option String) (current : Backtrace)
    (e : HyperError) : ApiError :=
  ApiError.new env current e.description

/-- `impl From<ToStrError> for ApiError` from `error.rs`. -/
def ApiError.fromToStrError (env : Option String) (current : Backtrace)
    (e : ToStrError) : ApiError :=
  ApiError.new env current e.description

/-- `impl From<ParseIntError> for ApiError` from `error.rs`. -/
def ApiError.fromParseIntError (env : Option String) (current : Backtrace)
    (e : ParseIntError) : ApiError :=
  ApiError.new env current e.description

/-- `impl From<io::Error> for ApiError` from `error.rs`. -/
def ApiError.fromIoError (env : Option String) (current : Backtrace)
    (e : IoError) : ApiError :=
  ApiError.new env current e.description

/-- The JSON values a serialized `ErrorResponse` can involve. Objects
keep their fields in order, as the derived serializer emits them. -/
inductive Json where
  | null : Json
  | str : String → Json
  | arr : List Json → Json
  | obj : List (String × Json) → Json

/-- The `#[derive(Serialize)]` encoding of `ErrorResponse` in `error.rs`:
fields in declaration order under their `#[serde(rename = ...)]` names;
`Option<Vec<String>>` encodes `None` as JSON null and `Some` as an array
of strings. -/
def ErrorResponse.toJson (r : ErrorResponse) : Json :=
  Json.obj
    [("errorMessage", Json.str r.error_message),
     ("errorType", Json.str r.error_type),
     ("stackTrace",
       match r.stack_trace with
       | none => Json.null
       | some ls => Json.arr (ls.map Json.str))]

/-- Field lookup in an association list of JSON object fields. -/
def lookupField : List (String × Json) → String → Option Json
  | [], _ => none
  | (k, v) :: rest, key => if k = key then some v else lookupField rest key

/-- The field bound to `key` when `j` is an object, `none` otherwise. -/
def Json.getField (j : Json) (key : String) : Option Json :=
  match j with
  | Json.obj fields => lookupField fields key
  | _ => none

/-- The list of field names when `j` is an object, `none` otherwise. -/
def Json.objKeys : Json → Option (List String)
  | Json.obj fields => some (fields.map (fun kv => kv.1))
  | _ => none

/-- Decode a list of JSON values that should all be strings. -/
def decodeStrings : List Json → Option (List String)
  | [] => some []
  | Json.str s :: rest => (decodeStrings rest).map (fun ls => s :: ls)
  | _ => none

/-- Modelled from the spec: decoding the wire JSON back into an
`ErrorResponse` is not in `src` (the struct derives only the encoder and
the spec treats JSON decoding as a given deserializer). Per the spec's
wire shape, the object carries exactly `errorMessage` (text),
`errorType` (text) and `stackTrace` (array of text lines, or null for an
absent trace). -/
def ErrorResponse.fromJson : Json → Option ErrorResponse
  | Json.obj [("errorMessage", Json.str m), ("errorType", Json.str t),
      ("stackTrace", st)] =>
    match st with
    | Json.null => some { error_message := m, error_type := t, stack_trace := none }
    | Json.arr items =>
      (decodeStrings items).map
        (fun ls => { error_message := m, error_type := t, stack_trace := some ls })
    | _ => none
  | _ => none

theorem decodeStrings_map_str (ls : List String) :
    decodeStrings (ls.map Json.str) = some ls := by
  induction ls with
  | nil => rfl
  | cons s rest ih => simp [decodeStrings, ih]

/-- Claim C1, evaluated on the code at the failing input: an `ApiError`
constructed with `RUST_BACKTRACE` unset (diagnostic capture disabled)
produces a response whose `stack_trace` is present — the single line
`"None"`, the `Debug` rendering of the absent backtrace — whereas the
claim requires the trace to be absent on that path. -/
theorem c1_disabled_capture_trace_still_present :
    ((ApiError.new none ⟨"frames"⟩ "x").to_response).stack_trace = some ["None"] := by
  decide

/-- Claim C2: for every `ApiError`, `to_response` returns a report whose
`stack_trace` is always present, and when the `backtrace` field is
`none` the attached trace is the single line `"None"`. -/
theorem c2_stack_trace_always_some (e : ApiError) :
    (e.to_response.stack_trace).isSome = true ∧
    (e.backtrace = none → e.to_response.stack_trace = some ["None"]) := by
  obtain ⟨msg, bt, rec⟩ := e
  refine ⟨rfl, fun h => ?_⟩
  cases h
  rfl

/-- Witness for C2 at a concrete `ApiError` with no captured backtrace. -/
theorem c2_stack_trace_always_some_witness :
    ((⟨"m", none, true⟩ : ApiError).to_response).stack_trace = some ["None"] :=
  (c2_stack_trace_always_some ⟨"m", none, true⟩).2 rfl

/-- Claim C3: for every non-empty description `d` (and whatever the
environment flag reads), `ApiError::new(d).to_response()` has message `d`
and the Unhandled kind. -/
theorem c3_new_report_message_and_kind (env : Option String) (cur : Backtrace)
    (d : String) (h : d ≠ "") :
    ((ApiError.new env cur d).to_response).error_message = d ∧
    ((ApiError.new env cur d).to_response).error_type = ERROR_TYPE_UNHANDLED :=
  ⟨rfl, rfl⟩

/-- Witness for C3 at the description `"connection refused"`. -/
theorem c3_new_report_message_and_kind_witness :
    ("connection refused" : String) ≠ "" ∧
    ((ApiError.new none ⟨""⟩ "connection refused").to_response).error_message
        = "connection refused" ∧
    ((ApiError.new none ⟨""⟩ "connection refused").to_response).error_type
        = ERROR_TYPE_UNHANDLED :=
  ⟨by decide, c3_new_report_message_and_kind none ⟨""⟩ "connection refused" (by decide)⟩

/-- Claim C4: `recoverable` is `true` on every fresh `ApiError`; after
any positive number of `unrecoverable()` calls it is `false`; and a
second call changes nothing (idempotence of the one-way transition). -/
theorem c4_recoverable_one_way (env : Option String) (cur : Backtrace)
    (d : String) (e : ApiError) (n : Nat) :
    (ApiError.new env cur d).recoverable = true ∧
    (ApiError.unrecoverable^[n + 1] e).recoverable = false ∧
    ApiError.unrecoverable (ApiError.unrecoverable e) = ApiError.unrecoverable e := by
  refine ⟨rfl, ?_, rfl⟩
  rw [Function.iterate_succ_apply']
  rfl

/-- Claim C5: each of the six `From` adaptations equals `ApiError::new`
applied to the source failure's `description()`, and leaves
`recoverable` equal to `true`. -/
theorem c5_adaptations_are_new (env : Option String) (cur : Backtrace)
    (e1 : SerdeJsonError) (e2 : InvalidUri) (e3 : HyperError)
    (e4 : ToStrError) (e5 : ParseIntError) (e6 : IoError) :
    (ApiError.fromSerdeJsonError env cur e1 = ApiError.new env cur e1.description ∧
      (ApiError.fromSerdeJsonError env cur e1).recoverable = true) ∧
    (ApiError.fromInvalidUri env cur e2 = ApiError.new env cur e2.description ∧
      (ApiError.fromInvalidUri env cur e2).recoverable = true) ∧
    (ApiError.fromHyperError env cur e3 = ApiError.new env cur e3.description ∧
      (ApiError.fromHyperError env cur e3).recoverable = true) ∧
    (ApiError.fromToStrError env cur e4 = ApiError.new env cur e4.description ∧
      (ApiError.fromToStrError env cur e4).recoverable = true) ∧
    (ApiError.fromParseIntError env cur e5 = ApiError.new env cur e5.description ∧
      (ApiError.fromParseIntError env cur e5).recoverable = true) ∧
    (ApiError.fromIoError env cur e6 = ApiError.new env cur e6.description ∧
      (ApiError.fromIoError env cur e6).recoverable = true) :=
  ⟨⟨rfl, rfl⟩, ⟨rfl, rfl⟩, ⟨rfl, rfl⟩, ⟨rfl, rfl⟩, ⟨rfl, rfl⟩, ⟨rfl, rfl⟩⟩

/-- Claim C6: `ApiError::new` stores a backtrace exactly when the
`RUST_BACKTRACE` variable, read at that construction call, is present
and equals the literal `"1"`; and no later `unrecoverable()` call ever
changes the stored trace (absent stays absent for the lifetime). -/
theorem c6_capture_iff_flag_one (env : Option String) (cur : Backtrace)
    (d : String) (n : Nat) :
    (ApiError.new env cur d).backtrace
        = (if env = some "1" then some cur else none) ∧
    (ApiError.unrecoverable^[n] (ApiError.new env cur d)).backtrace
        = (ApiError.new env cur d).backtrace := by
  constructor
  · cases env with
    | none => simp [ApiError.new]
    | some v => by_cases hv : v = "1" <;> simp [ApiError.new, hv]
  · induction n with
    | zero => rfl
    | succ k ih =>
      rw [Function.iterate_succ_apply']
      exact ih

/-- Claim C7: the JSON encoding of a report is an object with exactly
the field names `errorMessage`, `errorType` and `stackTrace`;
`errorMessage` carries the message text, `errorType` the string
`"Handled"` or `"Unhandled"`, and `stackTrace` an array of text lines or
null when the trace is absent. -/
theorem c7_wire_shape (r : ErrorResponse)
    (h : r.error_type = ERROR_TYPE_HANDLED ∨ r.error_type = ERROR_TYPE_UNHANDLED) :
    Json.objKeys (ErrorResponse.toJson r)
        = some ["errorMessage", "errorType", "stackTrace"] ∧
    Json.getField (ErrorResponse.toJson r) "errorMessage"
        = some (Json.str r.error_message) ∧
    (Json.getField (ErrorResponse.toJson r) "errorType" = some (Json.str "Handled") ∨
      Json.getField (ErrorResponse.toJson r) "errorType" = some (Json.str "Unhandled")) ∧
    (r.stack_trace = none →
      Json.getField (ErrorResponse.toJson r) "stackTrace" = some Json.null) ∧
    (∀ ls, r.stack_trace = some ls →
      Json.getField (ErrorResponse.toJson r) "stackTrace"
          = some (Json.arr (ls.map Json.str))) := by
  obtain ⟨m, t, st⟩ := r
  refine ⟨rfl, rfl, ?_, ?_, ?_⟩
  · rcases h with h | h <;> cases h
    · exact Or.inl rfl
    · exact Or.inr rfl
  · intro hst
    cases hst
    rfl
  · intro ls hst
    cases hst
    rfl

/-- Witness for C7 at the report `ErrorResponse::handled("m")`. -/
theorem c7_wire_shape_witness :
    (ErrorResponse.handled "m").error_type = ERROR_TYPE_HANDLED ∧
    Json.objKeys (ErrorResponse.toJson (ErrorResponse.handled "m"))
        = some ["errorMessage", "errorType", "stackTrace"] :=
  ⟨rfl, (c7_wire_shape (ErrorResponse.handled "m") (Or.inl rfl)).1⟩

/-- Claim C8: `handled(m)` yields the Handled kind with an absent trace
and message `m`; `unhandled(m)` yields the Unhandled kind with an absent
trace and message `m` (and, being total functions, neither fails). -/
theorem c8_named_constructors (m : String) :
    (ErrorResponse.handled m).error_message = m ∧
    (ErrorResponse.handled m).error_type = ERROR_TYPE_HANDLED ∧
    (ErrorResponse.handled m).stack_trace = none ∧
    (ErrorResponse.unhandled m).error_message = m ∧
    (ErrorResponse.unhandled m).error_type = ERROR_TYPE_UNHANDLED ∧
    (ErrorResponse.unhandled m).stack_trace = none :=
  ⟨rfl, rfl, rfl, rfl, rfl, rfl⟩

/-- Claim C9: encoding any `ErrorResponse` to its JSON wire form and
decoding that JSON back yields the identical report (absent trace going
through JSON null and back). -/
theorem c9_encode_decode_roundtrip (r : ErrorResponse) :
    ErrorResponse.fromJson (ErrorResponse.toJson r) = some r := by
  obtain ⟨m, t, st⟩ := r
  cases st with
  | none => rfl
  | some ls =>
    simp [ErrorResponse.toJson, ErrorResponse.fromJson, decodeStrings_map_str]

/-- Claim C10: `unrecoverable()` changes only the `recoverable` field —
`msg` and `backtrace` are untouched — and the value it returns is the
receiver itself (in the state-passing embedding, the post-state). -/
theorem c10_unrecoverable_frame (e : ApiError) :
    ApiError.unrecoverable e
        = { msg := e.msg, backtrace := e.backtrace, recoverable := false } ∧
    (ApiError.unrecoverable e).msg = e.msg ∧
    (ApiError.unrecoverable e).backtrace = e.backtrace :=
  ⟨rfl, rfl, rfl⟩

end LambdaError
